import Mathlib

/-!
Verification development for the subscription-gated API gateway
(`backend-server`): a shallow embedding of its data model and the
operations its specification talks about — usage metering
(`routes/usage.js` POST /increment, GET /status), the metered chat proxy
(`server.js` POST /api/chat), the Stripe webhook handlers
(`routes/webhooks.js`), the monthly usage reset (`utils/cronJobs.js`),
JWT session issuance/verification (`middleware/auth.js`), and the
Google sign-in gate (`routes/auth.js` access-token variant).

Tables are modelled after the SQL schema: `usage_tracking` is keyed by
the UNIQUE (user_id, month_year) pair and so embedded as a partial map;
`users` is keyed by id; `subscriptions` has no natural unique key in the
schema and is kept as a list of rows.  Wall-clock values (the current
month key, `now` for token expiry) are passed in as parameters.
External collaborators (Stripe customer/subscription retrieval, the
Google tokeninfo endpoint, the OpenAI call) are modelled as explicit
inputs: lookup maps or outcome parameters.
-/

namespace BackendServer

/-- Environment-derived limits: `FREE_QUESTIONS_LIMIT || 50`,
`PREMIUM_QUESTIONS_LIMIT || 100`. -/
structure Config where
  freeLimit : Nat := 50
  premiumLimit : Nat := 100
deriving DecidableEq, Repr

/-- `planType === 'premium' ? PREMIUM_QUESTIONS_LIMIT : FREE_QUESTIONS_LIMIT`. -/
def Config.limitFor (cfg : Config) (planType : String) : Nat :=
  if planType = "premium" then cfg.premiumLimit else cfg.freeLimit

/-- A row of the `users` table (sans surrogate id, which is the map key). -/
structure User where
  email : String
  displayName : String
  googleId : Option String
  isActive : Bool
deriving DecidableEq, Repr

/-- A row of the `subscriptions` table. -/
structure Subscription where
  userId : Nat
  stripeCustomerId : Option String := none
  stripeSubscriptionId : Option String := none
  planType : String := "free"
  status : String := "active"
  currentPeriodStart : Option Int := none
  currentPeriodEnd : Option Int := none
  cancelAtPeriodEnd : Bool := false
deriving DecidableEq, Repr

/-- The mutable columns of a `usage_tracking` row:
`questions_used` and `questions_limit`. -/
structure UsageCounters where
  used : Nat
  limit : Nat
deriving DecidableEq, Repr

/-- The persistent store.  `usage` is a partial map keyed by the
UNIQUE (user_id, month_year) constraint; `users` by primary key. -/
structure DB where
  users : Nat → Option User
  subscriptions : List Subscription
  usage : Nat → String → Option UsageCounters

/-- `SELECT plan_type FROM subscriptions WHERE user_id = $1 AND status = 'active'`,
first row. -/
def DB.activeSub (db : DB) (userId : Nat) : Option Subscription :=
  db.subscriptions.find? (fun s => s.userId = userId && s.status = "active")

/-- The plan type used when creating a usage row:
`subscriptionResult.rows[0]?.plan_type || 'free'`. -/
def DB.activePlanType (db : DB) (userId : Nat) : String :=
  ((db.activeSub userId).map Subscription.planType).getD "free"

/-- Write (insert or overwrite) the `usage_tracking` row at (user, month). -/
def DB.setUsage (db : DB) (userId : Nat) (month : String) (c : UsageCounters) : DB :=
  { db with usage := fun u m => if u = userId ∧ m = month then some c else db.usage u m }

/-- `UPDATE usage_tracking SET questions_used = questions_used + 1
WHERE user_id = $1 AND month_year = $2` — unconditional increment,
no `questions_used < questions_limit` guard in the WHERE clause. -/
def DB.incrUsage (db : DB) (userId : Nat) (month : String) : DB :=
  { db with usage := fun u m =>
      if u = userId ∧ m = month then
        (db.usage u m).map (fun c => { c with used := c.used + 1 })
      else db.usage u m }

/-- Outcome of POST /api/usage/increment as seen by the caller. -/
inductive IncrementResult
  /-- 200 `{questionsUsed, questionsLimit, canAskMore}` -/
  | ok (questionsUsed questionsLimit : Nat) (canAskMore : Bool)
  /-- 403 `USAGE_LIMIT_EXCEEDED` with `{questionsUsed, questionsLimit}` details -/
  | limitExceeded (questionsUsed questionsLimit : Nat)
deriving DecidableEq, Repr

/-- POST /api/usage/increment (`routes/usage.js`), run sequentially:
SELECT the (user, month) row; if absent, read the active subscription's
plan, INSERT a row with `questions_used = 1` and the plan's limit; if
present, reject 403 when `questions_used >= questions_limit`, else
UPDATE `questions_used + 1`.  Responds with the post-state counters and
`canAskMore = questions_used < questions_limit`. -/
def incrementUsage (cfg : Config) (db : DB) (userId : Nat) (month : String) :
    IncrementResult × DB :=
  match db.usage userId month with
  | none =>
      let questionsLimit := cfg.limitFor (db.activePlanType userId)
      (.ok 1 questionsLimit (decide (1 < questionsLimit)),
       db.setUsage userId month ⟨1, questionsLimit⟩)
  | some r =>
      if r.used ≥ r.limit then
        (.limitExceeded r.used r.limit, db)
      else
        (.ok (r.used + 1) r.limit (decide (r.used + 1 < r.limit)),
         db.incrUsage userId month)

/-!
Concurrency model for the increment handler.  The handler issues two
separate storage operations: the SELECT (read of the row) and then —
after a Javascript-side comparison of the *snapshot* it read — either
nothing (403 path) or the unconditional `UPDATE ... questions_used + 1`.
A request in flight is therefore a small state machine: it has either
not read yet, or holds a snapshot, or is finished.  Two concurrent
requests interleave their storage operations against the shared `DB`.
-/

/-- Progress of one in-flight POST /api/usage/increment request. -/
inductive Phase
  /-- the SELECT has not run yet -/
  | start
  /-- the SELECT returned this snapshot; the handler has not written yet -/
  | checked (snapshot : Option UsageCounters)
  /-- request finished; `ok = true` means 200 (incremented), `false` the 403 -/
  | done (ok : Bool)
deriving DecidableEq, Repr

/-- One storage operation of an in-flight increment request, exactly the
statements of `routes/usage.js`: from `start`, the SELECT; from
`checked none`, the INSERT with `questions_used = 1`; from
`checked (some r)`, the snapshot comparison `r.used >= r.limit`
followed (on the under-limit branch) by the unconditional UPDATE. -/
def phaseStep (cfg : Config) (userId : Nat) (month : String) :
    DB × Phase → DB × Phase
  | (db, .start) => (db, .checked (db.usage userId month))
  | (db, .checked none) =>
      let questionsLimit := cfg.limitFor (db.activePlanType userId)
      (db.setUsage userId month ⟨1, questionsLimit⟩, .done true)
  | (db, .checked (some r)) =>
      if r.used ≥ r.limit then (db, .done false)
      else (db.incrUsage userId month, .done true)
  | (db, .done b) => (db, .done b)

/-- Two concurrent increment requests for the same user sharing the store. -/
structure TwoRequests where
  db : DB
  t1 : Phase
  t2 : Phase

/-- Run one storage operation of thread 1 (`true`) or thread 2 (`false`). -/
def stepThread (cfg : Config) (userId : Nat) (month : String)
    (who : Bool) (s : TwoRequests) : TwoRequests :=
  if who then
    let (db', p') := phaseStep cfg userId month (s.db, s.t1)
    { s with db := db', t1 := p' }
  else
    let (db', p') := phaseStep cfg userId month (s.db, s.t2)
    { s with db := db', t2 := p' }

/-- Execute a schedule (a list of thread choices) from an initial state. -/
def runSchedule (cfg : Config) (userId : Nat) (month : String)
    (schedule : List Bool) (s : TwoRequests) : TwoRequests :=
  schedule.foldl (fun st who => stepThread cfg userId month who st) s

/-!  The metered chat proxy, `server.js` POST /api/chat.  -/

/-- The authenticated identity attached by `optionalAuth` plus the
`planType` field the chat handler reads off `req.user`. -/
structure ChatUser where
  id : Nat
  planType : String
deriving DecidableEq, Repr

/-- Outcome of the proxied OpenAI call, an external collaborator:
the fetch resolved ok, resolved with a non-ok HTTP status, or threw. -/
inductive Downstream
  | ok
  | httpError
  | threw
deriving DecidableEq, Repr

/-- Outcome of POST /api/chat as seen by the caller. -/
inductive ChatResult
  /-- 400, express-validator rejected the body -/
  | validationFailed
  /-- 403 `USAGE_LIMIT_EXCEEDED`; the downstream call was not attempted -/
  | limitExceeded (questionsUsed questionsLimit : Nat)
  /-- 500 "Server configuration error" (no OPENAI_API_KEY) -/
  | configError
  /-- downstream non-ok status passed through -/
  | upstreamError
  /-- 500 from the catch block around the downstream call -/
  | serverError
  /-- 200, the downstream response forwarded -/
  | okForwarded
deriving DecidableEq, Repr

/-- POST /api/chat (`server.js`): validate the body; if a user is bound
and a usage row exists for the current month with
`questions_used >= questions_limit`, reject 403 without calling
downstream (a user with *no* usage row is not gated); check the API key;
attempt the downstream call; on a non-ok downstream status or a thrown
error, return *before* any usage write; only on downstream success
upsert `usage_tracking` — INSERT `(questions_used = 1, limit 100/50 by
req.user.planType)` or, on conflict, `questions_used + 1` with the
existing limit untouched. -/
def chatHandler (db : DB) (user : Option ChatUser) (messagesValid : Bool)
    (hasApiKey : Bool) (downstream : Downstream) (month : String) :
    ChatResult × DB :=
  if ¬messagesValid then (.validationFailed, db)
  else
    let gate : Option (Nat × Nat) :=
      match user with
      | none => none
      | some u =>
          match db.usage u.id month with
          | some r => if r.used ≥ r.limit then some (r.used, r.limit) else none
          | none => none
    match gate with
    | some (used, lim) => (.limitExceeded used lim, db)
    | none =>
      if ¬hasApiKey then (.configError, db)
      else
        match downstream with
        | .threw => (.serverError, db)
        | .httpError => (.upstreamError, db)
        | .ok =>
            match user with
            | none => (.okForwarded, db)
            | some u =>
                let insertLimit : Nat := if u.planType = "premium" then 100 else 50
                let db' :=
                  match db.usage u.id month with
                  | none => db.setUsage u.id month ⟨1, insertLimit⟩
                  | some r => db.setUsage u.id month ⟨r.used + 1, r.limit⟩
                (.okForwarded, db')

/-!  Stripe webhook handlers, `routes/webhooks.js`.  -/

/-- The fields of a Stripe subscription object the handlers consume. -/
structure StripeSubObj where
  id : String
  customer : String
  status : String
  currentPeriodStart : Int := 0
  currentPeriodEnd : Int := 0
  cancelAtPeriodEnd : Bool := false
deriving DecidableEq, Repr

/-- The fields of a Stripe invoice object the handlers consume. -/
structure InvoiceObj where
  id : String
  subscription : Option String
deriving DecidableEq, Repr

/-- The fields of a Stripe checkout session the handler consumes. -/
structure CheckoutSession where
  id : String
  mode : String
  subscription : Option String
deriving DecidableEq, Repr

/-- A decoded webhook event: the six dispatched types plus the
acknowledged-and-ignored default branch. -/
inductive StripeEvent
  | subscriptionCreated (s : StripeSubObj)
  | subscriptionUpdated (s : StripeSubObj)
  | subscriptionDeleted (s : StripeSubObj)
  | paymentSucceeded (i : InvoiceObj)
  | paymentFailed (i : InvoiceObj)
  | checkoutCompleted (s : CheckoutSession)
  | unrecognized (eventType : String)
deriving DecidableEq, Repr

/-- The Stripe API as the handlers see it: `customers.retrieve(id)`
followed by the `metadata.user_id` read (none = no user_id attached),
and `subscriptions.retrieve(id)`. -/
structure StripeAPI where
  customerUserId : String → Option Nat
  getSubscription : String → Option StripeSubObj

/-- `UPDATE subscriptions SET ... WHERE stripe_subscription_id = $n`:
apply `f` to every row whose stripe_subscription_id matches. -/
def DB.updateSubsByStripeId (db : DB) (sid : String) (f : Subscription → Subscription) :
    DB :=
  { db with subscriptions :=
      db.subscriptions.map (fun s => if s.stripeSubscriptionId = some sid then f s else s) }

/-- `UPDATE subscriptions SET ... WHERE user_id = $n`. -/
def DB.updateSubsByUserId (db : DB) (userId : Nat) (f : Subscription → Subscription) :
    DB :=
  { db with subscriptions :=
      db.subscriptions.map (fun s => if s.userId = userId then f s else s) }

/-- `INSERT INTO usage_tracking (user_id, month_year, questions_limit)
VALUES ($1,$2,$3) ON CONFLICT (user_id, month_year) DO UPDATE SET
questions_limit = $3` — on insert `questions_used` takes its schema
default 0; on conflict only the limit column is written. -/
def DB.upsertUsageLimit (db : DB) (userId : Nat) (month : String) (lim : Nat) : DB :=
  match db.usage userId month with
  | none => db.setUsage userId month ⟨0, lim⟩
  | some r => db.setUsage userId month ⟨r.used, lim⟩

/-- `handleSubscriptionCreated`: resolve the owner from customer
metadata (silently return when absent); set the row(s) for that user to
premium with the event's status and period bounds; refresh the current
month's usage limit to the premium limit. -/
def handleSubscriptionCreated (cfg : Config) (stripe : StripeAPI)
    (sub : StripeSubObj) (db : DB) (month : String) : DB :=
  match stripe.customerUserId sub.customer with
  | none => db
  | some userId =>
      let db1 := db.updateSubsByUserId userId (fun s =>
        { s with stripeSubscriptionId := some sub.id, planType := "premium",
                 status := sub.status,
                 currentPeriodStart := some sub.currentPeriodStart,
                 currentPeriodEnd := some sub.currentPeriodEnd })
      db1.upsertUsageLimit userId month cfg.premiumLimit

/-- `handleSubscriptionUpdated`: resolve the owner from customer
metadata (silently return when absent); then
`UPDATE subscriptions SET status, current_period_start,
current_period_end, cancel_at_period_end WHERE
stripe_subscription_id = $5`.  The resolved user id is only logged —
no row is matched by it. -/
def handleSubscriptionUpdated (stripe : StripeAPI)
    (sub : StripeSubObj) (db : DB) : DB :=
  match stripe.customerUserId sub.customer with
  | none => db
  | some _userId =>
      db.updateSubsByStripeId sub.id (fun s =>
        { s with status := sub.status,
                 currentPeriodStart := some sub.currentPeriodStart,
                 currentPeriodEnd := some sub.currentPeriodEnd,
                 cancelAtPeriodEnd := sub.cancelAtPeriodEnd })

/-- `handleSubscriptionDeleted`: resolve the owner from customer
metadata (silently return when absent); set status `'cancelled'` on the
row(s) matched by stripe_subscription_id; then upsert the current
month's usage row back to the free limit (the `DO UPDATE` writes only
`questions_limit`, leaving `questions_used` untouched). -/
def handleSubscriptionDeleted (cfg : Config) (stripe : StripeAPI)
    (sub : StripeSubObj) (db : DB) (month : String) : DB :=
  match stripe.customerUserId sub.customer with
  | none => db
  | some userId =>
      let db1 := db.updateSubsByStripeId sub.id (fun s => { s with status := "cancelled" })
      db1.upsertUsageLimit userId month cfg.freeLimit

/-- `handlePaymentSucceeded`: when the invoice carries a subscription id,
re-fetch the subscription and its customer; if an owner is attached, set
status `'active'` on the row(s) matched by stripe_subscription_id. -/
def handlePaymentSucceeded (stripe : StripeAPI) (invoice : InvoiceObj) (db : DB) : DB :=
  match invoice.subscription with
  | none => db
  | some sid =>
      match stripe.getSubscription sid with
      | none => db
      | some sub =>
          match stripe.customerUserId sub.customer with
          | none => db
          | some _userId =>
              db.updateSubsByStripeId sub.id (fun s => { s with status := "active" })

/-- `handlePaymentFailed`: same resolution as payment-succeeded, setting
status `'past_due'`; the usage limit is not touched. -/
def handlePaymentFailed (stripe : StripeAPI) (invoice : InvoiceObj) (db : DB) : DB :=
  match invoice.subscription with
  | none => db
  | some sid =>
      match stripe.getSubscription sid with
      | none => db
      | some sub =>
          match stripe.customerUserId sub.customer with
          | none => db
          | some _userId =>
              db.updateSubsByStripeId sub.id (fun s => { s with status := "past_due" })

/-- `handleCheckoutCompleted`: for a subscription-mode session carrying
a subscription id, re-fetch it and its customer; if an owner is
attached, set the row(s) for that user to premium with the event's
status and period bounds. -/
def handleCheckoutCompleted (stripe : StripeAPI) (session : CheckoutSession)
    (db : DB) : DB :=
  if session.mode = "subscription" then
    match session.subscription with
    | none => db
    | some sid =>
        match stripe.getSubscription sid with
        | none => db
        | some sub =>
            match stripe.customerUserId sub.customer with
            | none => db
            | some userId =>
                db.updateSubsByUserId userId (fun s =>
                  { s with stripeSubscriptionId := some sub.id, planType := "premium",
                           status := sub.status,
                           currentPeriodStart := some sub.currentPeriodStart,
                           currentPeriodEnd := some sub.currentPeriodEnd })
  else db

/-- An inbound webhook request: the raw body, the `stripe-signature`
header value, and the event the body decodes to (carried alongside so
that decoding need not be re-modelled; the dispatcher may only look at
it after the signature verifies). -/
structure WebhookRequest where
  body : String
  signature : Nat
  event : StripeEvent

/-- Stand-in for the HMAC the Stripe library computes over the raw body
with the shared webhook secret (the library itself is an external
collaborator; any concrete keyed function serves the model). -/
def mkSig (secret : Nat) (body : String) : Nat :=
  body.data.foldl (fun a c => a * 31 + c.toNat) secret

/-- `stripe.webhooks.constructEvent(req.body, sig, STRIPE_WEBHOOK_SECRET)`:
verify the signature against the shared secret and only then hand back
the decoded event; on a signature mismatch it throws (here: `none`). -/
def constructEvent (secret : Nat) (req : WebhookRequest) : Option StripeEvent :=
  if req.signature = mkSig secret req.body then some req.event else none

/-- What POST /api/webhooks/stripe acknowledged, and which handler ran. -/
structure WebhookAck where
  httpStatus : Nat
  dispatchedTo : Option String
deriving DecidableEq, Repr

/-- POST /api/webhooks/stripe dispatcher: verify the signature first and
return 400 on failure, touching nothing; otherwise switch on the event
type, run the matching handler against the store, and acknowledge 200
(unknown types are acknowledged without dispatch). -/
def handleBillingEvent (cfg : Config) (stripe : StripeAPI) (secret : Nat)
    (req : WebhookRequest) (db : DB) (month : String) : WebhookAck × DB :=
  match constructEvent secret req with
  | none => (⟨400, none⟩, db)
  | some ev =>
      match ev with
      | .subscriptionCreated s =>
          (⟨200, some "subscription.created"⟩, handleSubscriptionCreated cfg stripe s db month)
      | .subscriptionUpdated s =>
          (⟨200, some "subscription.updated"⟩, handleSubscriptionUpdated stripe s db)
      | .subscriptionDeleted s =>
          (⟨200, some "subscription.deleted"⟩, handleSubscriptionDeleted cfg stripe s db month)
      | .paymentSucceeded i =>
          (⟨200, some "invoice.payment_succeeded"⟩, handlePaymentSucceeded stripe i db)
      | .paymentFailed i =>
          (⟨200, some "invoice.payment_failed"⟩, handlePaymentFailed stripe i db)
      | .checkoutCompleted s =>
          (⟨200, some "checkout.session.completed"⟩, handleCheckoutCompleted stripe s db)
      | .unrecognized _ => (⟨200, none⟩, db)

/-!  The monthly usage reset, `utils/cronJobs.js` `setupMonthlyUsageReset`.  -/

/-- `SELECT DISTINCT u.id, s.plan_type FROM users u JOIN subscriptions s
ON u.id = s.user_id WHERE s.status = 'active'`. -/
def DB.activeEntries (db : DB) : List (Nat × String) :=
  ((db.subscriptions.filter
      (fun s => s.status = "active" && (db.users s.userId).isSome)).map
    (fun s => (s.userId, s.planType))).eraseDups

/-- The cron job's body: for every user with an active subscription,
`INSERT INTO usage_tracking (user_id, month_year, questions_used,
questions_limit) VALUES ($1,$2,0,$3) ON CONFLICT (user_id, month_year)
DO UPDATE SET questions_used = 0, questions_limit = $3` — the conflict
branch writes `questions_used = 0` too. -/
def resetAllUsage (cfg : Config) (db : DB) (month : String) : DB :=
  db.activeEntries.foldl
    (fun d e => d.setUsage e.1 month ⟨0, cfg.limitFor e.2⟩) db

/-!  JWT sessions, `middleware/auth.js`.  -/

/-- The claims and signature of a signed session token.  The HMAC of
`jsonwebtoken` is abstracted as `tokenSig` over the claims and secret. -/
structure AuthToken where
  userId : Nat
  expiresAt : Nat
  sig : Nat
deriving DecidableEq, Repr

/-- Stand-in for the JWT signature over the payload `{userId}` plus the
expiry claim, keyed by JWT_SECRET. -/
def tokenSig (secret userId expiresAt : Nat) : Nat :=
  (secret * 2 + userId + 1) * 2 ^ (expiresAt % 32) + expiresAt

/-- `generateToken(userId)`: sign `{userId}` with JWT_SECRET, expiring
`JWT_EXPIRES_IN` after issuance. -/
def generateToken (secret userId now expiresIn : Nat) : AuthToken :=
  { userId := userId, expiresAt := now + expiresIn,
    sig := tokenSig secret userId (now + expiresIn) }

/-- Outcome of the `authenticateToken` middleware. -/
inductive AuthResult
  /-- request proceeds with `req.user` set to this row (id = the key) -/
  | ok (userId : Nat) (user : User)
  /-- 401 `UNAUTHORIZED`, no token supplied -/
  | unauthorized
  /-- 401 `TOKEN_EXPIRED` -/
  | tokenExpired
  /-- 401 `INVALID_TOKEN` (bad signature, or no such user) -/
  | invalidToken
  /-- 401 `USER_INACTIVE` -/
  | userInactive
deriving DecidableEq, Repr

/-- `authenticateToken`: require a bearer token; `jwt.verify` checks the
signature (bad → `INVALID_TOKEN`) and the expiry claim
(past → `TOKEN_EXPIRED`); then re-fetch the user row by the embedded id
(absent → `INVALID_TOKEN`); reject `USER_INACTIVE` when `is_active` is
false; otherwise attach the row. -/
def authenticateToken (secret : Nat) (db : DB) (now : Nat)
    (token : Option AuthToken) : AuthResult :=
  match token with
  | none => .unauthorized
  | some t =>
      if t.sig ≠ tokenSig secret t.userId t.expiresAt then .invalidToken
      else if t.expiresAt ≤ now then .tokenExpired
      else
        match db.users t.userId with
        | none => .invalidToken
        | some u => if u.isActive then .ok t.userId u else .userInactive

/-- Flip a user's `is_active` flag to false (the deactivation that is
supposed to invalidate outstanding sessions). -/
def DB.deactivate (db : DB) (userId : Nat) : DB :=
  { db with users := fun i =>
      if i = userId then (db.users i).map (fun u => { u with isActive := false })
      else db.users i }

/-!
The Google sign-in route's admission prefix (access-token variant of
POST /google-signin): field validation, credential verification against
Google's tokeninfo endpoint, and the cross-check of the verified subject
id against the claimed `userInfo.id`, up to the point where the handler
enters the create-or-update binding step.
-/

/-- The claimed identity payload `userInfo` sent by the extension. -/
structure UserInfo where
  id : String
  email : String
  name : String
  picture : String
deriving DecidableEq, Repr

/-- The fields of Google's tokeninfo response the route consumes. -/
structure TokenData where
  user_id : String
deriving DecidableEq, Repr

/-- Outcome of the sign-in route's admission prefix. -/
inductive SigninGateResult
  /-- 400 `VALIDATION_ERROR` -/
  | validationError (message : String)
  /-- 401 `AUTH_FAILED` (`error.message` or the default text) -/
  | authFailed (message : String)
  /-- verification and cross-check passed; the handler proceeds to the
  user lookup/create step with this verified subject id -/
  | proceed (googleId : String)
deriving DecidableEq, Repr

/-- The `error.code` of the structured response, `""` on the
proceed path. -/
def SigninGateResult.errorCode : SigninGateResult → String
  | .validationError _ => "VALIDATION_ERROR"
  | .authFailed _ => "AUTH_FAILED"
  | .proceed _ => ""

/-- The admission prefix of POST /google-signin: reject 400 when the
access token or user info (or its email/id fields) is missing; call
`verifyGoogleAccessToken` (an external collaborator — `none` models a
rejected, unreachable, malformed or expired credential, whose thrown
`'Failed to verify access token'` the catch block turns into a 401
`AUTH_FAILED`); then require `tokenData.user_id === userInfo.id`,
answering 401 `AUTH_FAILED` / `'User info mismatch'` on a difference.
The route contains no call into `authLogger` — neither path emits a
security event. -/
def googleSigninGate (accessTokenPresent : Bool) (userInfo : Option UserInfo)
    (verifyOutcome : Option TokenData) : SigninGateResult :=
  if ¬accessTokenPresent ∨ userInfo = none then
    .validationError "Access token and user info are required"
  else
    match userInfo with
    | none => .validationError "Access token and user info are required"
    | some ui =>
        if ui.email = "" ∨ ui.id = "" then
          .validationError "User info must include email and id"
        else
          match verifyOutcome with
          | none => .authFailed "Failed to verify access token"
          | some tokenData =>
              if tokenData.user_id ≠ ui.id then .authFailed "User info mismatch"
              else .proceed tokenData.user_id

/-!  GET /api/usage/status/:userId?, `routes/usage.js`.  -/

/-- The JSON body of a successful usage-status response (the wall-clock
`nextReset` field, first day of the next month, is outside the model). -/
structure StatusResponse where
  questionsUsed : Nat
  questionsLimit : Nat
  questionsRemaining : Nat
  planType : String
deriving DecidableEq, Repr

/-- GET /api/usage/status/:userId?: the target is
`req.params.userId || req.user.id` — the path parameter when present,
with no comparison against the authenticated caller.  Report the
target's usage row (joined with its active subscription's plan type),
or, with no row, zero usage against the plan-derived limit. -/
def usageStatus (cfg : Config) (db : DB) (callerId : Nat)
    (paramUserId : Option Nat) (month : String) : StatusResponse :=
  let userId := paramUserId.getD callerId
  match db.usage userId month with
  | some r =>
      { questionsUsed := r.used, questionsLimit := r.limit,
        questionsRemaining := r.limit - r.used,
        planType := ((db.activeSub userId).map Subscription.planType).getD "free" }
  | none =>
      let questionsLimit :=
        match db.activeSub userId with
        | some s => cfg.limitFor s.planType
        | none => cfg.freeLimit
      { questionsUsed := 0, questionsLimit := questionsLimit,
        questionsRemaining := questionsLimit,
        planType := ((db.activeSub userId).map Subscription.planType).getD "free" }

/-!  Theorems.  -/

/-- Claim C6: for every user whose current-period record is at
consumed = 49 / limit = 50, two sequential `recordUsage` calls through
POST /api/usage/increment behave as: the first succeeds with
consumed = 50 and `canAskMore = false` (admitted because 49 < 50), and
the second fails 403 `USAGE_LIMIT_EXCEEDED` without incrementing
(because 50 >= 50). -/
theorem increment_at_limit_minus_one (cfg : Config) (db : DB) (u : Nat) (m : String)
    (h : db.usage u m = some ⟨49, 50⟩) :
    (incrementUsage cfg db u m).1 = .ok 50 50 false ∧
    ((incrementUsage cfg db u m).2).usage u m = some ⟨50, 50⟩ ∧
    incrementUsage cfg ((incrementUsage cfg db u m).2) u m
      = (.limitExceeded 50 50, (incrementUsage cfg db u m).2) := by
  have h1 : incrementUsage cfg db u m = (.ok 50 50 false, db.incrUsage u m) := by
    simp [incrementUsage, h]
  have h2 : (db.incrUsage u m).usage u m = some ⟨50, 50⟩ := by
    simp [DB.incrUsage, h]
  refine ⟨by rw [h1], by rw [h1]; exact h2, ?_⟩
  rw [h1]
  simp [incrementUsage, h2]

/-- Store for the concrete increment scenarios: one usage row,
user 1 at consumed 49 of limit 50 for month 2025-09. -/
def dbAt49 : DB :=
  { users := fun _ => none
    subscriptions := []
    usage := fun u m => if u = 1 ∧ m = "2025-09" then some ⟨49, 50⟩ else none }

/-- Witness for `increment_at_limit_minus_one` at the concrete store. -/
theorem increment_at_limit_minus_one_witness :
    (incrementUsage {} dbAt49 1 "2025-09").1 = .ok 50 50 false ∧
    ((incrementUsage {} dbAt49 1 "2025-09").2).usage 1 "2025-09" = some ⟨50, 50⟩ ∧
    incrementUsage {} ((incrementUsage {} dbAt49 1 "2025-09").2) 1 "2025-09"
      = (.limitExceeded 50 50, (incrementUsage {} dbAt49 1 "2025-09").2) :=
  increment_at_limit_minus_one {} dbAt49 1 "2025-09" (by decide)

/-- The interleaving in which both requests run their SELECT before
either runs its UPDATE. -/
def racedRun : TwoRequests :=
  runSchedule {} 1 "2025-09" [true, false, true, false] ⟨dbAt49, .start, .start⟩

/-- The fully sequential execution of the same two requests. -/
def sequentialRun : TwoRequests :=
  runSchedule {} 1 "2025-09" [true, true, false, false] ⟨dbAt49, .start, .start⟩

/-- Claim C1: the check-and-increment of POST /api/usage/increment is a
SELECT followed by a Javascript-side comparison and a separate,
unconditional `UPDATE ... questions_used + 1` — not a single atomic
conditional operation.  From consumed = 49 / limit = 50, the schedule
in which both concurrent requests read before either writes makes BOTH
succeed and leaves consumed = 51, exceeding the limit; the same two
requests run sequentially give exactly one success and consumed = 50. -/
theorem increment_race_two_succeed :
    racedRun.t1 = .done true ∧ racedRun.t2 = .done true ∧
    racedRun.db.usage 1 "2025-09" = some ⟨51, 50⟩ ∧ 50 < 51 ∧
    sequentialRun.t1 = .done true ∧ sequentialRun.t2 = .done false ∧
    sequentialRun.db.usage 1 "2025-09" = some ⟨50, 50⟩ := by
  refine ⟨rfl, rfl, rfl, by decide, rfl, rfl, rfl⟩

/-- The chat admission check of `server.js`: a bound user is admitted
unless a usage row exists with `questions_used >= questions_limit`. -/
def passesChatGate (db : DB) (userId : Nat) (month : String) : Bool :=
  match db.usage userId month with
  | some r => decide (r.used < r.limit)
  | none => true

/-- Store for the chat scenarios: user 2 at consumed 10 of limit 50. -/
def dbChat : DB :=
  { users := fun _ => none
    subscriptions := []
    usage := fun u m => if u = 2 ∧ m = "2025-09" then some ⟨10, 50⟩ else none }

/-- Claim C2 counterexample: an authenticated user at 10/50 passes the
admission check, the downstream call fails with a non-ok status, and the
usage counter is NOT incremented — the handler returns the upstream
error before reaching the increment, so consumed stays 10 instead of
being charged to 11 as the claim requires. -/
theorem chat_failed_call_not_charged :
    (chatHandler dbChat (some ⟨2, "free"⟩) true true .httpError "2025-09").1
      = .upstreamError ∧
    (chatHandler dbChat (some ⟨2, "free"⟩) true true .httpError "2025-09").2.usage
        2 "2025-09" = some ⟨10, 50⟩ ∧
    (chatHandler dbChat (some ⟨2, "free"⟩) true true .httpError "2025-09").2.usage
        2 "2025-09" ≠ some ⟨11, 50⟩ := by
  refine ⟨rfl, rfl, by decide⟩

/-- Claim C2 amended: for a metered chat request by an authenticated
user that passes the admission check, usage is charged on SUCCESS, not
on attempt — a downstream non-ok status or thrown error returns before
the increment and leaves the store untouched, and only a downstream
success upserts the counter (insert at 1, or +1 on conflict). -/
theorem chat_charges_only_on_success (db : DB) (u : ChatUser) (m : String)
    (ds : Downstream) (hGate : passesChatGate db u.id m = true) :
    (ds ≠ .ok → chatHandler db (some u) true true ds m = (.upstreamError, db) ∨
                chatHandler db (some u) true true ds m = (.serverError, db)) ∧
    (ds = .ok →
      (chatHandler db (some u) true true ds m).2.usage u.id m =
        some (match db.usage u.id m with
              | some r => ⟨r.used + 1, r.limit⟩
              | none => ⟨1, if u.planType = "premium" then 100 else 50⟩)) := by
  unfold passesChatGate at hGate
  cases h : db.usage u.id m with
  | none =>
      constructor
      · intro hne
        cases ds with
        | ok => exact absurd rfl hne
        | httpError => left; simp [chatHandler, h]
        | threw => right; simp [chatHandler, h]
      · intro hok
        subst hok
        simp [chatHandler, h, DB.setUsage]
  | some r =>
      rw [h] at hGate
      have hlt : r.used < r.limit := by simpa using hGate
      constructor
      · intro hne
        cases ds with
        | ok => exact absurd rfl hne
        | httpError => left; simp [chatHandler, h, Nat.not_le_of_lt hlt]
        | threw => right; simp [chatHandler, h, Nat.not_le_of_lt hlt]
      · intro hok
        subst hok
        simp [chatHandler, h, Nat.not_le_of_lt hlt, DB.setUsage]

/-- Witness for `chat_charges_only_on_success` at the concrete store,
downstream failing with a non-ok status. -/
theorem chat_charges_only_on_success_witness :
    (Downstream.httpError ≠ .ok →
      chatHandler dbChat (some ⟨2, "free"⟩) true true .httpError "2025-09"
          = (.upstreamError, dbChat) ∨
      chatHandler dbChat (some ⟨2, "free"⟩) true true .httpError "2025-09"
          = (.serverError, dbChat)) ∧
    (Downstream.httpError = .ok →
      (chatHandler dbChat (some ⟨2, "free"⟩) true true .httpError "2025-09").2.usage
          2 "2025-09" =
        some (match dbChat.usage 2 "2025-09" with
              | some r => ⟨r.used + 1, r.limit⟩
              | none => ⟨1, if ("free" : String) = "premium" then 100 else 50⟩)) :=
  chat_charges_only_on_success dbChat ⟨2, "free"⟩ "2025-09" .httpError (by decide)

/-- Store for the reset scenarios: user 3 with a free active
subscription and a usage row at consumed 30 of limit 50. -/
def dbReset : DB :=
  { users := fun i =>
      if i = 3 then
        some { email := "a@x.com", displayName := "A", googleId := some "g3",
               isActive := true }
      else none
    subscriptions := [{ userId := 3 }]
    usage := fun u m => if u = 3 ∧ m = "2025-09" then some ⟨30, 50⟩ else none }

/-- Claim C3 counterexample: running the monthly reset for a period in
which user 3 already has consumed = 30 sets the count back to 0 — the
upsert's `ON CONFLICT` branch writes `questions_used = 0`, so an
already-nonzero consumed count for the period is NOT left unchanged. -/
theorem reset_zeroes_nonzero_consumed :
    (resetAllUsage {} dbReset "2025-09").usage 3 "2025-09" = some ⟨0, 50⟩ ∧
    (resetAllUsage {} dbReset "2025-09").usage 3 "2025-09" ≠ some ⟨30, 50⟩ := by
  refine ⟨rfl, by decide⟩

/-- Folding the reset upserts over entries none of which belong to user
`u` leaves user `u`'s usage rows unchanged. -/
theorem reset_fold_skips_other_users (cfg : Config) (m : String) (u : Nat)
    (l : List (Nat × String)) (db : DB) (h : ∀ e ∈ l, e.1 ≠ u) :
    (l.foldl (fun d e => d.setUsage e.1 m ⟨0, cfg.limitFor e.2⟩) db).usage u m
      = db.usage u m := by
  induction l generalizing db with
  | nil => rfl
  | cons e t ih =>
      have he : e.1 ≠ u := h e (List.mem_cons_self e t)
      have ht : ∀ x ∈ t, x.1 ≠ u := fun x hx => h x (List.mem_cons_of_mem e hx)
      rw [List.foldl_cons, ih _ ht]
      simp only [DB.setUsage]
      rw [if_neg (fun hc => he hc.1.symm)]

/-- Claim C3 amended: the reset upsert writes consumed = 0 and the
plan-derived limit both when inserting and on conflict, so after
`resetAllUsage` every user with a (unique) governing subscription holds
a record of consumed = 0 — an already-nonzero consumed count for an
already-processed period is zeroed, not preserved. -/
theorem reset_always_zeroes_consumed (cfg : Config) (db : DB) (m : String)
    (u : Nat) (p : String)
    (h : db.activeEntries.filter (fun e => e.1 == u) = [(u, p)]) :
    (resetAllUsage cfg db m).usage u m = some ⟨0, cfg.limitFor p⟩ := by
  unfold resetAllUsage
  generalize hl : db.activeEntries = l at h
  clear hl
  induction l generalizing db with
  | nil => simp at h
  | cons e t ih =>
      by_cases he : e.1 = u
      · rw [List.filter_cons_of_pos (by simpa using he)] at h
        obtain ⟨rfl, hrest⟩ := List.cons.inj h
        rw [List.foldl_cons]
        have hnone : ∀ x ∈ t, x.1 ≠ u := by
          intro x hx hc
          have : x ∈ t.filter (fun e => e.1 == u) :=
            List.mem_filter.mpr ⟨hx, by simpa using hc⟩
          simp [hrest] at this
        rw [reset_fold_skips_other_users cfg m u t _ hnone]
        simp [DB.setUsage]
      · rw [List.filter_cons_of_neg (by simpa using he)] at h
        rw [List.foldl_cons]
        exact ih _ h

/-- Witness for `reset_always_zeroes_consumed` at the concrete store. -/
theorem reset_always_zeroes_consumed_witness :
    (resetAllUsage {} dbReset "2025-10").usage 3 "2025-10" = some ⟨0, 50⟩ :=
  reset_always_zeroes_consumed {} dbReset "2025-10" 3 "free" (by decide)

/-- Claim C4: a webhook request whose signature does not verify against
the configured shared secret is rejected 400 before the event is looked
at — whatever the payload decodes to, no handler is dispatched and the
store is returned untouched. -/
theorem webhook_bad_signature_rejected (cfg : Config) (stripe : StripeAPI)
    (secret : Nat) (req : WebhookRequest) (db : DB) (m : String)
    (h : req.signature ≠ mkSig secret req.body) :
    handleBillingEvent cfg stripe secret req db m = (⟨400, none⟩, db) := by
  simp [handleBillingEvent, constructEvent, h]

/-- A Stripe API stub resolving nothing, and an unsigned request, for
the signature-rejection witness. -/
def stripeEmpty : StripeAPI :=
  { customerUserId := fun _ => none, getSubscription := fun _ => none }

/-- Witness for `webhook_bad_signature_rejected`: a deleted-subscription
payload carrying signature 0, against secret 5 (the valid signature for
body "x" is 275). -/
theorem webhook_bad_signature_rejected_witness :
    handleBillingEvent {} stripeEmpty 5
        ⟨"x", 0, .subscriptionDeleted ⟨"sub_1", "cus_1", "canceled", 0, 0, false⟩⟩
        dbReset "2025-09"
      = (⟨400, none⟩, dbReset) :=
  webhook_bad_signature_rejected {} stripeEmpty 5
    ⟨"x", 0, .subscriptionDeleted ⟨"sub_1", "cus_1", "canceled", 0, 0, false⟩⟩
    dbReset "2025-09" (by decide)

/-- Claim C5: for a user with a governing premium subscription at
consumed = 30 / limit = 100, `handleSubscriptionDeleted` for that
subscription marks the row cancelled, demotes the current-period usage
limit to the free-tier limit 50, and leaves consumed at 30. -/
theorem subscription_deleted_demotes_limit (cfg : Config) (stripe : StripeAPI)
    (sub : StripeSubObj) (db : DB) (m : String) (uid : Nat) (s : Subscription)
    (hc : stripe.customerUserId sub.customer = some uid)
    (hs : s ∈ db.subscriptions)
    (hid : s.stripeSubscriptionId = some sub.id)
    (_hplan : s.planType = "premium") (_hstat : s.status = "active")
    (hu : db.usage uid m = some ⟨30, 100⟩)
    (hfree : cfg.freeLimit = 50) :
    { s with status := "cancelled" }
        ∈ (handleSubscriptionDeleted cfg stripe sub db m).subscriptions ∧
    (handleSubscriptionDeleted cfg stripe sub db m).usage uid m = some ⟨30, 50⟩ := by
  have heq : handleSubscriptionDeleted cfg stripe sub db m
      = DB.upsertUsageLimit
          (db.updateSubsByStripeId sub.id (fun s => { s with status := "cancelled" }))
          uid m cfg.freeLimit := by
    unfold handleSubscriptionDeleted
    rw [hc]
  have hmem : { s with status := "cancelled" }
      ∈ (db.updateSubsByStripeId sub.id
          (fun s => { s with status := "cancelled" })).subscriptions := by
    unfold DB.updateSubsByStripeId
    have := List.mem_map_of_mem
      (fun x => if x.stripeSubscriptionId = some sub.id
                then { x with status := "cancelled" } else x) hs
    simpa [hid] using this
  have husage : (db.updateSubsByStripeId sub.id
      (fun s => { s with status := "cancelled" })).usage uid m = some ⟨30, 100⟩ := hu
  rw [heq]
  unfold DB.upsertUsageLimit
  rw [husage]
  constructor
  · exact hmem
  · simp [DB.setUsage, hfree]

/-- Store for the subscription-deleted witness: user 4, premium active
subscription `sub_prem` for customer `cus_4`, usage 30 of 100. -/
def dbPremium : DB :=
  { users := fun i =>
      if i = 4 then
        some { email := "p@x.com", displayName := "P", googleId := some "g4",
               isActive := true }
      else none
    subscriptions := [{ userId := 4, stripeCustomerId := some "cus_4",
                        stripeSubscriptionId := some "sub_prem",
                        planType := "premium", status := "active" }]
    usage := fun u m => if u = 4 ∧ m = "2025-09" then some ⟨30, 100⟩ else none }

/-- Stripe stub for the subscription-deleted witness. -/
def stripePremium : StripeAPI :=
  { customerUserId := fun c => if c = "cus_4" then some 4 else none
    getSubscription := fun _ => none }

/-- The subscription.deleted event object of the witness scenario. -/
def deletedEvent : StripeSubObj :=
  { id := "sub_prem", customer := "cus_4", status := "canceled" }

/-- Witness for `subscription_deleted_demotes_limit` at the concrete
premium store. -/
theorem subscription_deleted_demotes_limit_witness :
    { userId := 4, stripeCustomerId := some "cus_4",
      stripeSubscriptionId := some "sub_prem",
      planType := "premium", status := "cancelled" : Subscription }
        ∈ (handleSubscriptionDeleted {} stripePremium deletedEvent dbPremium
            "2025-09").subscriptions ∧
    (handleSubscriptionDeleted {} stripePremium deletedEvent dbPremium
        "2025-09").usage 4 "2025-09" = some ⟨30, 50⟩ :=
  subscription_deleted_demotes_limit {} stripePremium deletedEvent dbPremium
    "2025-09" 4
    { userId := 4, stripeCustomerId := some "cus_4",
      stripeSubscriptionId := some "sub_prem",
      planType := "premium", status := "active" }
    (by decide) (by decide) (by decide) (by decide) (by decide) (by decide) (by decide)

/-- A stale local subscription row for user 7: its external id `sub_old`
differs from the id the provider now uses. -/
def staleRow : Subscription :=
  { userId := 7, stripeCustomerId := some "cus_7",
    stripeSubscriptionId := some "sub_old",
    planType := "premium", status := "past_due" }

/-- Store holding only the stale row. -/
def dbStale : DB :=
  { users := fun _ => none
    subscriptions := [staleRow]
    usage := fun _ _ => none }

/-- Stripe stub resolving customer `cus_7` to user 7. -/
def stripeStale : StripeAPI :=
  { customerUserId := fun c => if c = "cus_7" then some 7 else none
    getSubscription := fun _ => none }

/-- A subscription.updated event under the provider's new id `sub_new`. -/
def updatedEvent : StripeSubObj :=
  { id := "sub_new", customer := "cus_7", status := "active",
    currentPeriodStart := 100, currentPeriodEnd := 200 }

/-- Claim C7 counterexample: the owner resolves to user 7 and no local
row carries the event's external id, yet `handleSubscriptionUpdated`
leaves user 7's row exactly as it was — its status stays `past_due`
instead of the event's `active`, so there is no fall-back match by the
resolved user id. -/
theorem subscription_updated_no_user_fallback :
    stripeStale.customerUserId updatedEvent.customer = some 7 ∧
    (∀ s ∈ dbStale.subscriptions, s.stripeSubscriptionId ≠ some updatedEvent.id) ∧
    (handleSubscriptionUpdated stripeStale updatedEvent dbStale).subscriptions
      = [staleRow] ∧
    staleRow.userId = 7 ∧ staleRow.status ≠ updatedEvent.status := by
  refine ⟨by decide, by decide, rfl, rfl, by decide⟩

/-- Claim C7 amended: `handleSubscriptionUpdated` touches only rows
matched by external-subscription-id; when no row carries the event's
external id, nothing at all is updated — there is no fall-back match by
the resolved user id. -/
theorem subscription_updated_external_id_only (stripe : StripeAPI)
    (sub : StripeSubObj) (db : DB)
    (h : ∀ s ∈ db.subscriptions, s.stripeSubscriptionId ≠ some sub.id) :
    handleSubscriptionUpdated stripe sub db = db := by
  unfold handleSubscriptionUpdated
  cases stripe.customerUserId sub.customer with
  | none => rfl
  | some uid =>
      show db.updateSubsByStripeId sub.id _ = db
      unfold DB.updateSubsByStripeId
      have hmap : ∀ l : List Subscription,
          (∀ s ∈ l, s.stripeSubscriptionId ≠ some sub.id) →
          l.map (fun s =>
            if s.stripeSubscriptionId = some sub.id then
              { s with status := sub.status,
                       currentPeriodStart := some sub.currentPeriodStart,
                       currentPeriodEnd := some sub.currentPeriodEnd,
                       cancelAtPeriodEnd := sub.cancelAtPeriodEnd }
            else s) = l := by
        intro l hl
        induction l with
        | nil => rfl
        | cons a t ih =>
            rw [List.map_cons, if_neg (hl a (List.mem_cons_self a t)),
              ih (fun s hs => hl s (List.mem_cons_of_mem a hs))]
      rw [hmap db.subscriptions h]

/-- Witness for `subscription_updated_external_id_only` at the concrete
stale store. -/
theorem subscription_updated_external_id_only_witness :
    handleSubscriptionUpdated stripeStale updatedEvent dbStale = dbStale :=
  subscription_updated_external_id_only stripeStale updatedEvent dbStale (by decide)

/-- Claim C8: for an active user, `generateToken` followed immediately
by `authenticateToken` resolves to the same user id (with the re-fetched
row attached); and if the user's active flag is flipped to false between
issuance and verification, verification fails `USER_INACTIVE` — the
middleware re-fetches the row rather than trusting the embedded claim. -/
theorem session_round_trip (secret : Nat) (db : DB) (now expiresIn uid : Nat)
    (u : User) (hu : db.users uid = some u) (ha : u.isActive = true)
    (he : 0 < expiresIn) :
    authenticateToken secret db now (some (generateToken secret uid now expiresIn))
      = .ok uid u ∧
    authenticateToken secret (db.deactivate uid) now
        (some (generateToken secret uid now expiresIn))
      = .userInactive := by
  have hexp : ¬(now + expiresIn ≤ now) := by omega
  constructor
  · simp [authenticateToken, generateToken, hexp, hu, ha]
  · simp [authenticateToken, generateToken, hexp, DB.deactivate, hu]

/-- Store for the session round-trip witness: one active user, id 9. -/
def dbSession : DB :=
  { users := fun i =>
      if i = 9 then
        some { email := "s@x.com", displayName := "S", googleId := some "g9",
               isActive := true }
      else none
    subscriptions := []
    usage := fun _ _ => none }

/-- Witness for `session_round_trip` with secret 11, issued at time 1000
with a 7-day-in-seconds expiry. -/
theorem session_round_trip_witness :
    authenticateToken 11 dbSession 1000
        (some (generateToken 11 9 1000 604800))
      = .ok 9 { email := "s@x.com", displayName := "S", googleId := some "g9",
                isActive := true } ∧
    authenticateToken 11 (dbSession.deactivate 9) 1000
        (some (generateToken 11 9 1000 604800))
      = .userInactive :=
  session_round_trip 11 dbSession 1000 604800 9
    { email := "s@x.com", displayName := "S", googleId := some "g9",
      isActive := true }
    (by decide) (by decide) (by decide)

/-- The claimed identity payload of the spoof scenario. -/
def claimedInfo : UserInfo :=
  { id := "subject-claimed", email := "u@x.com", name := "U", picture := "p" }

/-- Claim C9 counterexample: when Google's verification returns a
subject id differing from the claimed `userInfo.id`, the route answers
401 with `error.code = 'AUTH_FAILED'` — exactly the same kind as a
rejected/unreachable credential (`verifyGoogleAccessToken` failure),
not a distinct spoof-suspected kind; only the message text differs. -/
theorem signin_mismatch_same_kind :
    googleSigninGate true (some claimedInfo) (some ⟨"subject-verified"⟩)
      = .authFailed "User info mismatch" ∧
    (googleSigninGate true (some claimedInfo) (some ⟨"subject-verified"⟩)).errorCode
      = "AUTH_FAILED" ∧
    (googleSigninGate true (some claimedInfo) none).errorCode = "AUTH_FAILED" := by
  refine ⟨rfl, rfl, rfl⟩

/-- Claim C9 amended: a subject-id mismatch between the verified token
data and the claimed payload fails with the generic 401 `AUTH_FAILED`
kind — the same `error.code` the route answers for a rejected,
unreachable or expired credential, distinguished only by the message
`'User info mismatch'` — and the route logs no security event (it
contains no `authLogger` call at all). -/
theorem signin_mismatch_generic_kind (ui : UserInfo) (td : TokenData)
    (hemail : ui.email ≠ "") (hid : ui.id ≠ "")
    (hm : td.user_id ≠ ui.id) :
    googleSigninGate true (some ui) (some td) = .authFailed "User info mismatch" ∧
    (googleSigninGate true (some ui) (some td)).errorCode
      = (googleSigninGate true (some ui) none).errorCode := by
  have h1 : googleSigninGate true (some ui) (some td)
      = .authFailed "User info mismatch" := by
    simp [googleSigninGate, hemail, hid, hm]
  have h2 : googleSigninGate true (some ui) none
      = .authFailed "Failed to verify access token" := by
    simp [googleSigninGate, hemail, hid]
  rw [h1, h2]
  exact ⟨rfl, rfl⟩

/-- Witness for `signin_mismatch_generic_kind` at the concrete spoof
scenario. -/
theorem signin_mismatch_generic_kind_witness :
    googleSigninGate true (some claimedInfo) (some ⟨"other-subject"⟩)
      = .authFailed "User info mismatch" ∧
    (googleSigninGate true (some claimedInfo) (some ⟨"other-subject"⟩)).errorCode
      = (googleSigninGate true (some claimedInfo) none).errorCode :=
  signin_mismatch_generic_kind claimedInfo ⟨"other-subject"⟩
    (by decide) (by decide) (by decide)

/-- Claim C10: GET /api/usage/status/:userId? reports the usage of the
user named by the path parameter: the response is identical whichever
authenticated caller asks (no check ties the parameter to the caller),
it coincides with what the target would get for themselves, and it
carries the target's consumed count, limit and plan type. -/
theorem usage_status_returns_named_user (cfg : Config) (db : DB)
    (caller otherCaller target : Nat) (m : String) (r : UsageCounters)
    (hr : db.usage target m = some r) :
    usageStatus cfg db caller (some target) m
      = usageStatus cfg db otherCaller (some target) m ∧
    usageStatus cfg db caller (some target) m
      = usageStatus cfg db target none m ∧
    (usageStatus cfg db caller (some target) m).questionsUsed = r.used ∧
    (usageStatus cfg db caller (some target) m).questionsLimit = r.limit ∧
    (usageStatus cfg db caller (some target) m).planType
      = db.activePlanType target := by
  refine ⟨rfl, rfl, ?_, ?_, ?_⟩ <;>
    simp [usageStatus, hr, DB.activePlanType]

/-- Store for the usage-status witness: target user 5 at 12 of 50 with
an active free subscription; callers 4 and 6 are unrelated users. -/
def dbStatus : DB :=
  { users := fun _ => none
    subscriptions := [{ userId := 5 }]
    usage := fun u m => if u = 5 ∧ m = "2025-09" then some ⟨12, 50⟩ else none }

/-- Witness for `usage_status_returns_named_user`: callers 4 and 6 both
read user 5's counters. -/
theorem usage_status_returns_named_user_witness :
    usageStatus {} dbStatus 4 (some 5) "2025-09"
      = usageStatus {} dbStatus 6 (some 5) "2025-09" ∧
    usageStatus {} dbStatus 4 (some 5) "2025-09"
      = usageStatus {} dbStatus 5 none "2025-09" ∧
    (usageStatus {} dbStatus 4 (some 5) "2025-09").questionsUsed = 12 ∧
    (usageStatus {} dbStatus 4 (some 5) "2025-09").questionsLimit = 50 ∧
    (usageStatus {} dbStatus 4 (some 5) "2025-09").planType
      = dbStatus.activePlanType 5 :=
  usage_status_returns_named_user {} dbStatus 4 6 5 "2025-09" ⟨12, 50⟩ (by decide)

end BackendServer
